import Mathlib

/-!
# Verification of the NRCan Geodetic Integrated Service scripts

Shallow embedding of the validation, normalization and request-construction
pipeline shared by the four transformation tools (GPSH.py, TRX.py, INDIR.py,
NTV2.py).  Python strings are Lean `String`s; optional command-line arguments
(`argparse` values that may be `None`) are `Option String`; `float(...)` on
user input is modelled by an exact decimal parse plus infinities and nan,
with the binary64 rounding the source performs folded into the one
comparison the scripts make on the value; fallible code returns
`Except`.
-/

namespace GeoSvc

/-! ## Python string primitives -/

/-- ASCII uppercase of a character, as Python `str.upper` acts on the ASCII
tokens used by these scripts. -/
def asciiUpper (c : Char) : Char :=
  if 97 ≤ c.toNat ∧ c.toNat ≤ 122 then Char.ofNat (c.toNat - 32) else c

/-- ASCII lowercase of a character, as Python `str.lower` acts on the ASCII
tokens used by these scripts. -/
def asciiLower (c : Char) : Char :=
  if 65 ≤ c.toNat ∧ c.toNat ≤ 90 then Char.ofNat (c.toNat + 32) else c

/-- Python `s.upper()` on ASCII data. -/
def strUp (s : String) : String := String.mk (s.data.map asciiUpper)

/-- Python `s.lower()` on ASCII data. -/
def strLow (s : String) : String := String.mk (s.data.map asciiLower)

/-- Whether the second list begins with the first (`str.startswith` on the
underlying characters). -/
def listBegins : List Char → List Char → Bool
  | [], _ => true
  | _ :: _, [] => false
  | a :: as, b :: bs => a == b && listBegins as bs

/-- Python `s.startswith(pre)`. -/
def strBegins (s pre : String) : Bool := listBegins pre.data s.data

/-- Python truthiness of an optional string: `None` and `''` are falsy. -/
def truthy : Option String → Bool
  | none => false
  | some s => s ≠ ""

/-- Python `a or b` on two optional strings (returns the first truthy
operand, else the second operand). -/
def pyOr (a b : Option String) : Option String :=
  if truthy a then a else b

/-- Python `a or b` on two strings. -/
def pyOrS (a b : String) : String :=
  if a ≠ "" then a else b

/-- `str(v)` as applied by `urllib.parse.urlencode` to an optional argument:
`None` renders as the string `None`. -/
def pyStrOpt : Option String → String
  | none => "None"
  | some s => s

/-- Decimal digit test (ASCII). -/
def isDig (c : Char) : Bool := decide (48 ≤ c.toNat ∧ c.toNat ≤ 57)

/-- Whether every character of the string is ASCII.  Python's `\d` and
`float(...)` additionally accept non-ASCII Unicode decimal digit forms; the
epoch contract is stated for the ASCII strings these command-line flags
receive, where the embedding is exact. -/
def asciiOnly (s : String) : Bool := s.data.all (fun c => c.toNat ≤ 127)

/-- Numeric value of a list of decimal digit characters. -/
def digitsToNat (l : List Char) : Nat :=
  l.foldl (fun a c => 10 * a + (c.toNat - 48)) 0

/-- Ordered association-list lookup, as used for url-encoded query parameters
and multipart fields. -/
def lookupP (k : String) : List (String × String) → Option String
  | [] => none
  | (a, b) :: t => if a == k then some b else lookupP k t

/-! ## Python `float(...)` on a string

CPython first checks that every underscore in the literal is surrounded by
digits (and removes them), then strips whitespace, reads an optional sign and
either a case-insensitive `inf`/`infinity`/`nan` keyword or a decimal literal
`digits [. digits] [(e|E) [sign] digits]`.  The numeric value is modelled at
exact rational precision. -/

/-- A Python float value produced by `float(...)`: a finite value, an
infinity, or nan.  A finite value is kept as the exact decimal `n / 10 ^ k`
of the accepted literal; the binary64 rounding `float` performs is accounted
for in `pyInEpochRange`, the chained range comparison that is the only use
the scripts make of the numeric value (`epoch = float(...)` is overwritten
by the raw string on acceptance). -/
inductive PyNum where
  | num (n : ℤ) (k : ℕ)
  | pinf
  | ninf
  | nan
  deriving DecidableEq

/-- Powers of ten, used as exact decimal denominators. -/
def pow10 : ℕ → ℤ
  | 0 => 1
  | n + 1 => 10 * pow10 n

/-- Python whitespace accepted by `float(...)` (ASCII subset). -/
def isWs (c : Char) : Bool := [' ', '\t', '\n', '\r', '\x0b', '\x0c'].contains c

/-- Strip leading and trailing whitespace. -/
def stripWs (l : List Char) : List Char :=
  ((l.dropWhile isWs).reverse.dropWhile isWs).reverse

/-- CPython underscore rule for numeric literals: every `_` must be directly
preceded and followed by a digit.  `prev` is the previous character. -/
def undersOk (prev : Option Char) : List Char → Bool
  | [] => true
  | c :: rest =>
    if c == '_' then
      match prev, rest with
      | some p, n :: _ => isDig p && isDig n && undersOk (some c) rest
      | _, _ => false
    else undersOk (some c) rest

/-- Remove the (already validated) underscores from a numeric literal. -/
def rmUnders (l : List Char) : List Char := l.filter (fun c => c != '_')

/-- Read an optional sign; returns (isNegative, rest). -/
def takeSign : List Char → Bool × List Char
  | '+' :: r => (false, r)
  | '-' :: r => (true, r)
  | l => (false, l)

/-- Case-insensitively consume a (lowercase) keyword, returning the rest of
the input on success. -/
def matchKw : List Char → List Char → Option (List Char)
  | [], l => some l
  | _ :: _, [] => none
  | k :: ks, c :: cs => if asciiLower c == k then matchKw ks cs else none

/-- Split off a leading run of digits. -/
def spanDigs (l : List Char) : List Char × List Char :=
  (l.takeWhile isDig, l.dropWhile isDig)

/-- Parse an unsigned decimal literal `digits [. digits] [(e|E) [sign] digits]`
(the whole input must be consumed), at exact decimal precision: the result
`(n, k)` denotes `n / 10 ^ k`. -/
def parseDec (l : List Char) : Option (ℤ × ℕ) :=
  let (ip, r1) := spanDigs l
  let (fp, r2) :=
    match r1 with
    | '.' :: rest => spanDigs rest
    | _ => ([], r1)
  if ip.isEmpty && fp.isEmpty then none
  else
    let n0 : ℤ := (digitsToNat (ip ++ fp) : ℤ)
    let k0 : ℕ := fp.length
    match r2 with
    | [] => some (n0, k0)
    | 'e' :: rest => parseExp n0 k0 rest
    | 'E' :: rest => parseExp n0 k0 rest
    | _ => none
where
  /-- Parse the exponent part after `e`/`E` and fold it into the exact
  decimal `(n, k)`. -/
  parseExp (n0 : ℤ) (k0 : ℕ) (rest : List Char) : Option (ℤ × ℕ) :=
    let (eneg, r3) := takeSign rest
    let (ed, r4) := spanDigs r3
    if ed.isEmpty || !r4.isEmpty then none
    else
      let e : ℕ := digitsToNat ed
      if eneg then some (n0, k0 + e) else some (n0 * pow10 e, k0)

/-- Python `float(...)` on a list of characters. -/
def pyFloatOfChars (l0 : List Char) : Option PyNum :=
  if !undersOk none l0 then none
  else
    let l := stripWs (rmUnders l0)
    let (neg, r) := takeSign l
    match matchKw "infinity".data r with
    | some [] => some (if neg then .ninf else .pinf)
    | _ =>
      match matchKw "inf".data r with
      | some [] => some (if neg then .ninf else .pinf)
      | _ =>
        match matchKw "nan".data r with
        | some [] => some .nan
        | _ =>
          match parseDec r with
          | some (n, k) => some (.num (if neg then -n else n) k)
          | none => none

/-- Python `float(s)`: `some` value on success, `none` when `float` raises
`ValueError`. -/
def pyFloat (s : String) : Option PyNum := pyFloatOfChars s.data

/-- The chained comparison `1980.0 <= float(raw) <= 2050.0` of the epoch
range check, on the exact decimal value `n / 10 ^ k` of the literal.  The
comparison the source performs is on the binary64 value `float` returns, so
the check must account for the rounding: `1980.0` and `2050.0` are exactly
representable, round-to-nearest-even is monotone, the binary64 predecessor
of `1980` is `1980 - 2 ^ (-42)` (ulp `2 ^ (-42)` in the binade
`[2 ^ 10, 2 ^ 11)`) with the halfway point `1980 - 2 ^ (-43)` rounding to
the even significand `1980 * 2 ^ 42`, i.e. to `1980`; and the successor of
`2050` is `2050 + 2 ^ (-41)` (ulp `2 ^ (-41)` in `[2 ^ 11, 2 ^ 12)`) with
the halfway point `2050 + 2 ^ (-42)` rounding to the even significand
`2050 * 2 ^ 41`, i.e. to `2050`.  Hence `1980.0 <= float(q) <= 2050.0` holds
exactly when `1980 - 2 ^ (-43) ≤ q ≤ 2050 + 2 ^ (-42)` (values that overflow
to an infinity lie outside the interval on the same side).  Cleared of
denominators over `ℤ` this is the condition below.  The comparison is false
for nan (both comparisons fail) and for the infinities (one of the two
comparisons fails). -/
def pyInEpochRange : PyNum → Bool
  | .num n k =>
    decide (1980 * pow10 k * 2 ^ 43 ≤ n * 2 ^ 43 + pow10 k ∧
      n * 2 ^ 42 ≤ 2050 * pow10 k * 2 ^ 42 + pow10 k)
  | _ => false

/-! ## Calendar dates (`datetime.date`) -/

/-- Gregorian leap year, as `datetime.date` uses. -/
def isLeap (y : Nat) : Bool := y % 4 == 0 && (y % 100 != 0 || y % 400 == 0)

/-- Days in a month, as `datetime.date` uses. -/
def daysInMonth (y m : Nat) : Nat :=
  if m == 2 then (if isLeap y then 29 else 28)
  else if m == 4 || m == 6 || m == 9 || m == 11 then 30
  else 31

/-- Whether `date(year, month, day)` succeeds: `datetime.MINYEAR = 1 ≤ year ≤
9999 = datetime.MAXYEAR`, `1 ≤ month ≤ 12`, `1 ≤ day ≤ daysInMonth`. -/
def dateValid (y m d : Nat) : Bool :=
  decide (1 ≤ y ∧ y ≤ 9999 ∧ 1 ≤ m ∧ m ≤ 12 ∧ 1 ≤ d) && d ≤ daysInMonth y m

/-- The body of the `date_format` regular-expression match: two dashes in
the right places, eight digits, and the three captured numbers must form a
valid `datetime.date`. -/
def dateCore (y1 y2 y3 y4 h1 m1 m2 h2 d1 d2 : Char) : Bool :=
  h1 == '-' && h2 == '-' &&
    ([y1, y2, y3, y4, m1, m2, d1, d2].all isDig) &&
    dateValid (digitsToNat [y1, y2, y3, y4]) (digitsToNat [m1, m2])
      (digitsToNat [d1, d2])

/-- `date_format(epoch_string)` shared verbatim by GPSH.py (lines 222-233) and
TRX.py (lines 114-125): the string must match the regular expression
`^(\d\x7b4\x7d)-(\d\x7b2\x7d)-(\d\x7b2\x7d)$` and the three captured numbers
must form a valid `datetime.date`.  Python's `$` also matches just before a
single trailing newline, so a date followed by exactly one `\n` matches too
(the second pattern below); digits are ASCII here — Python's `\d` would also
accept non-ASCII Unicode decimal digits, which these command-line tokens are
taken not to contain. -/
def date_format (s : String) : Bool :=
  match s.data with
  | [y1, y2, y3, y4, h1, m1, m2, h2, d1, d2] =>
    dateCore y1 y2 y3 y4 h1 m1 m2 h2 d1 d2
  | [y1, y2, y3, y4, h1, m1, m2, h2, d1, d2, c] =>
    c == '\n' && dateCore y1 y2 y3 y4 h1 m1 m2 h2 d1 d2
  | _ => false

/-! ## Epoch resolver (GPSH.py lines 238-252; TRX.py lines 140-155 for the
origin epoch and 160-174 for the destination epoch) -/

/-- Outcome of resolving one raw epoch string. -/
inductive EpochOutcome where
  /-- The raw string is accepted (and used unchanged). -/
  | accepted (epoch : String)
  /-- `sys.exit` with the `is not within the 1980-2050 epoch frame` message. -/
  | outOfRange (raw : String)
  /-- `sys.exit` with the `is not a valid format or date` message. -/
  | badFormat (raw : String)
  deriving DecidableEq

/-- The epoch resolution shared by GPSH `--epoch`, TRX `--originEpoch` and TRX
`--destEpoch`: accept a `date_format` match unchanged; otherwise try
`float(raw)` and require `1980.0 <= value <= 2050.0`, exiting with the
out-of-range message on a value outside the range and with the bad-format
message when `float` raises `ValueError`. -/
def resolveEpoch (raw : String) : EpochOutcome :=
  if date_format raw then .accepted raw
  else
    match pyFloat raw with
    | some v => if pyInEpochRange v then .accepted raw else .outOfRange raw
    | none => .badFormat raw

/-! ## Reference catalogs

`rf_list` is identical in GPSH.py (lines 54-55) and TRX.py (lines 53-54);
`zone_list` is identical in GPSH.py (lines 72-84), TRX.py (lines 57-69) and
NTV2.py (lines 174-186). -/

/-- Reference frame catalog. -/
def rf_list : List String :=
  ["NAD83(CSRS)", "ITRF2020", "ITRF2014", "ITRF2008", "ITRF2005", "ITRF2000",
   "ITRF97", "ITRF96", "ITRF94", "ITRF93", "ITRF92", "ITRF91", "ITRF90",
   "ITRF89", "ITRF88"]

/-- Projection zone catalog. -/
def zone_list : List String :=
  ["QC-LCC", "NB-NAD83(CSRS)", "PEI-NAD83(CSRS)", "AB-3TM-111", "AB-3TM-114",
   "AB-3TM-117", "AB-3TM-120", "AB-UTM-111", "AB-UTM-117", "AB-10TM",
   "BC-3TM-111", "BC-3TM-114", "BC-3TM-117", "BC-3TM-120", "BC-3TM-123",
   "BC-3TM-126", "BC-3TM-129", "BC-3TM-132", "BC-3TM-135", "BC-3TM-138",
   "BC-3TM-141", "BC-6TM-111", "BC-6TM-117", "BC-6TM-123", "BC-6TM-129",
   "BC-6TM-135", "BC-6TM-141", "BC-10TM-115", "BC-10TM-125", "BC-10TM-135",
   "NL-1", "NL-2", "NL-3", "NL-4", "NL-5", "NL-6", "NS-NAD83-1997-4",
   "NS-NAD83-1997-5", "NS-NAD83-2010-4", "NS-NAD83-2010-5", "ON-8", "ON-9",
   "ON-10", "ON-11", "ON-12", "ON-13", "ON-14", "ON-15", "ON-16", "ON-17",
   "QC-2", "QC-3", "QC-4", "QC-5", "QC-6", "QC-7", "QC-8", "QC-9", "QC-10",
   "UTM1", "UTM2", "UTM3", "UTM4", "UTM5", "UTM6", "UTM7", "UTM8", "UTM9",
   "UTM10", "UTM11", "UTM12", "UTM13", "UTM14", "UTM15", "UTM16", "UTM17",
   "UTM18", "UTM19", "UTM20", "UTM21", "UTM22", "UTM23", "UTM24", "UTM25",
   "UTM26", "UTM27", "UTM28", "UTM29", "UTM30", "UTM31", "UTM32", "UTM33",
   "UTM34", "UTM35", "UTM36", "UTM37", "UTM38", "UTM39", "UTM40", "UTM41",
   "UTM42", "UTM43", "UTM44", "UTM45", "UTM46", "UTM47", "UTM48", "UTM49",
   "UTM50", "UTM51", "UTM52", "UTM53", "UTM54", "UTM55", "UTM56", "UTM57",
   "UTM58", "UTM59", "UTM60"]

/-- Geoid model catalog of GPSH.py (lines 57-69), as the list of its values
in key order 0..10. -/
def geoid_list : List String :=
  ["CGG2013a", "CGG2013", "HT2_2010v70", "HT2_2002v70", "HT2_1997", "CGG2010",
   "CGG2005", "CGG2000", "GSD95", "GSD91", "EGM08"]

/-- Geoid conversion catalog of GPSH.py (lines 87-94), values in key order. -/
def conversions_dict : List String :=
  ["HT2_2010_to_CGG2013a", "CGG2013a_HT2_2010", "HT2_2002_to_CGG2013a",
   "CGG2013a_HT2_2002", "HT2_1997_to_CGG2013a", "CGG2013a_HT2_1997"]

/-- Case-insensitive lookup in a catalog of canonical entries, as the
`for key, v in d.items(): if tok.lower() == v.lower()` loops of GPSH.py
(geoid models, conversions) and INDIR.py (ellipsoids): returns the canonical
entry on a match, `None` otherwise. -/
def findCI (catalog : List String) (tok : String) : Option String :=
  catalog.find? (fun entry => strLow tok == strLow entry)

/-! ## Catalog validator: alias resolution (GPSH.py lines 171-199, TRX.py
lines 177-212, NTV2.py lines 242-258) -/

/-- Reference-frame alias resolution: any token whose uppercase form starts
with `NAD` becomes the canonical `NAD83(CSRS)`; every other token is
uppercased. -/
def frameCanon (tok : String) : String :=
  if strBegins (strUp tok) "NAD" then "NAD83(CSRS)" else strUp tok

/-- Zone alias resolution: a token starting (case-insensitively) with `NB`
becomes `NB-NAD83(CSRS)`, one starting with `PEI` becomes `PEI-NAD83(CSRS)`,
and every other token is uppercased.  Identical in GPSH.py, TRX.py and
NTV2.py. -/
def zoneAlias (tok : String) : String :=
  if strBegins (strUp tok) "NB" then "NB-NAD83(CSRS)"
  else if strBegins (strUp tok) "PEI" then "PEI-NAD83(CSRS)"
  else strUp tok

/-- A catalog rejection; `shown` is the catalog enumerated to the user next
to the error message (`[]` when the message enumerates nothing). -/
structure CatalogReject where
  shown : List String
  deriving DecidableEq

/-- GPSH reference-frame validation (lines 171-181): alias resolution, then
`rf_list.index`; on failure the error output enumerates `rf_list` (the
`Possible Inputs:` line). -/
def gpshFrameValidate (tok : String) : Except CatalogReject String :=
  let f := frameCanon tok
  if rf_list.contains f then .ok f else .error ⟨rf_list⟩

/-- GPSH zone validation for a supplied zone token (lines 186-199): alias
resolution, then `zone_list.index`; on failure the error output enumerates
`zone_list`. -/
def gpshZoneValidate (tok : String) : Except CatalogReject String :=
  let z := zoneAlias tok
  if zone_list.contains z then .ok z else .error ⟨zone_list⟩

/-- TRX reference-frame validation (lines 177-185 with lines 242-250): alias
resolution, then `rf_list.index`; the failure message (`does not match any on
record`) enumerates no catalog. -/
def trxFrameValidate (tok : String) : Except CatalogReject String :=
  let f := frameCanon tok
  if rf_list.contains f then .ok f else .error ⟨[]⟩

/-- TRX origin-zone validation for a supplied zone token (lines 192-199 with
264-268): alias resolution, then `zone_list.index`; the failure message
enumerates no catalog. -/
def trxZoneValidate (tok : String) : Except CatalogReject String :=
  let z := zoneAlias tok
  if zone_list.contains z then .ok z else .error ⟨[]⟩

/-! ## Velocity handling in TRX (lines 218-239) -/

/-- The all-or-nothing velocity check of TRX.py lines 218-229, written with
Python truthiness exactly as in the source: each condition
`if a or b is not None:` parses as `truthy(a) or (b is not None)`, so the
third branch (`vz is None` with `vx`, `vy` both present) tests
`truthy(vx) or (vy is not None)`, which is always true there.  Returns
`true` when the script prints the `Please enter all velocities OR none`
message and exits. -/
def trxVelCheck (vx vy vz : Option String) : Bool :=
  if vx == none then truthy vy || vz.isSome
  else if vy == none then truthy vx || vz.isSome
  else if vz == none then truthy vx || vy.isSome
  else false

/-- The interpolation toggle of TRX.py lines 232-239: `geovinterp`,
`carvinterp` and `planvinterp` are all set to `off` when
`vx and vy and vz is not None` is truthy, else to `on`. -/
def trxVelInterp (vx vy vz : Option String) : String :=
  if truthy vx && truthy vy && vz.isSome then "off" else "on"

/-! ## Response interpreter (GPSH.py lines 381-398, TRX.py lines 411-428,
INDIR.py lines 286-303, NTV2.py lines 381-399) -/

/-- A JSON value, as produced by `json.loads`. -/
inductive Json where
  | jnull
  | jbool (b : Bool)
  | jstr (s : String)
  | jnum (lit : String)
  | jarr (items : List Json)
  | jobj (fields : List (String × Json))

/-- Lookup in a JSON object field list. -/
def jlookup (k : String) : List (String × Json) → Option Json
  | [] => none
  | (a, v) :: t => if a == k then some v else jlookup k t

/-- The Python exceptions that subscripting can raise here. -/
inductive PyErr where
  | keyErr
  | typeErr
  deriving DecidableEq

/-- Python `v[k]` on a JSON value: a `KeyError` when `v` is an object without
the key, a `TypeError` when `v` is not an object (not subscriptable by a
string). -/
def pyIndex (v : Json) (k : String) : Except PyErr Json :=
  match v with
  | .jobj kvs =>
    match jlookup k kvs with
    | some r => .ok r
    | none => .error .keyErr
  | _ => .error .typeErr

/-- Python `d[k]` where `d` is `results_dict`, which is `None` when
`json.loads` raised `JSONDecodeError`: `None[k]` raises `TypeError`. -/
def pyIndexOpt (d : Option Json) (k : String) : Except PyErr Json :=
  match d with
  | none => .error .typeErr
  | some v => pyIndex v k

/-- The classification the scripts print after the error check. -/
inductive InterpOutcome where
  /-- `x` is `False`: the full parsed value is printed as the result. -/
  | success (result : Option Json)
  /-- `x` is `True`: `ERROR:` is printed with the extracted message. -/
  | svcError (msg : Json)

/-- The shared response interpretation: `results_dict` is the outcome of
`json.loads` (`none` after a `JSONDecodeError`); the interpreter evaluates
`results_dict['Errors']['Msg']` inside a `try` that handles only `KeyError`,
so a `TypeError` (unparseable body, non-object body, or non-object `Errors`
member) propagates out of the script uncaught. -/
def interpretResults (rd : Option Json) : Except PyErr InterpOutcome :=
  match (pyIndexOpt rd "Errors").bind (fun e => pyIndex e "Msg") with
  | .ok msg => .ok (.svcError msg)
  | .error .keyErr => .ok (.success rd)
  | .error .typeErr => .error .typeErr

/-- `true` on `Except.ok`. -/
def exOk {ε α : Type} : Except ε α → Bool
  | .ok _ => true
  | .error _ => false

/-! ## INDIR single-point height requirements (INDIR.py lines 208-251) -/

/-- The three `sys.exit` errors of the 3D height checks. -/
inductive IndirError where
  | firstHeightMissing
  | zenithOrDeltaMissing
  | secondHeightMissing
  deriving DecidableEq

/-- The exact `sys.exit` message of each 3D height error. -/
def indirErrorMsg : IndirError → String
  | .firstHeightMissing => "ERROR: For 3D usage, you must enter a valid first height (-z1)."
  | .zenithOrDeltaMissing =>
      "ERROR: For 3D usage (-3d) you must provide forward zenith (-z2) OR delta_H (-dh)."
  | .secondHeightMissing => "ERROR: For 3D usage, a second height must be inputted (-z2)."

/-- The point-2 fields computed by INDIR.py lines 208-251 (`none` models a
Python `None`, `some ""` the empty-string defaults the script assigns). -/
structure IndirFields where
  z1 : Option String
  z2 : Option String
  zen : Option String
  dh : Option String
  dis : Option String
  azi : Option String
  x2 : Option String
  y2 : Option String
  deriving DecidableEq

/-- INDIR.py lines 208-251: the first-point-height check (3D only), then the
direct/indirect split with its 3D requirements.  In direct mode the check is
`if (args.delta_h or args.z2) is None:` — Python truthiness of `delta_h`
decides which operand the `or` returns. -/
def indirPointChecks (threeD indir : String) (z1a z2a dha x2a y2a : Option String) :
    Except IndirError IndirFields :=
  if threeD == "true" && z1a == none then .error .firstHeightMissing
  else
    let z1f : Option String := if threeD == "true" then z1a else some ""
    if indir == "direct" then
      if threeD == "true" then
        if pyOr dha z2a == none then .error .zenithOrDeltaMissing
        else
          .ok ⟨z1f, some "", some (z2a.getD ""), some (dha.getD ""), x2a, y2a,
            some "", some ""⟩
      else .ok ⟨z1f, some "", some "", some "", x2a, y2a, some "", some ""⟩
    else
      if threeD == "true" then
        if z2a == none then .error .secondHeightMissing
        else .ok ⟨z1f, z2a, some "", some "", some "", some "", x2a, y2a⟩
      else .ok ⟨z1f, some "", some "", some "", some "", some "", x2a, y2a⟩

/-! ## NTv2 destination zone handling (NTV2.py lines 251-277 and 322-330) -/

/-- The NTv2 `sys.exit` for an unknown destination zone. -/
inductive Ntv2Err where
  | destZoneUnknown
  deriving DecidableEq

/-- NTV2.py lines 251-261: alias-resolve the supplied destination zone; when
none was supplied and the destination coordinate system is `plan`, default it
to the placeholder `UTM`. -/
def ntv2DestZone (destZone : Option String) (dcoord : String) : Option String :=
  let dz := destZone.map zoneAlias
  if dz == none && dcoord == "plan" then some "UTM" else dz

/-- NTV2.py lines 271-277: the value `UTM` skips the catalog check; any other
non-`None` zone must be in `zone_list`. -/
def ntv2DestZoneCheck (dz : Option String) : Option Ntv2Err :=
  if dz == some "UTM" then none
  else
    match dz with
    | some zz => if zone_list.contains zz then none else some .destZoneUnknown
    | none => none

/-- The destination-zone part of the NTv2 pipeline: resolve (with the `plan`
default), then validate. -/
def ntv2DestPipeline (destZone : Option String) (dcoord : String) :
    Except Ntv2Err (Option String) :=
  let dz := ntv2DestZone destZone dcoord
  match ntv2DestZoneCheck dz with
  | some e => .error e
  | none => .ok dz

/-- The non-file multipart fields of the NTv2 batch upload (NTV2.py lines
323-330), in insertion order. -/
def ntv2BatchFields (grid dcoord : String) (dz : Option String) (mode : String) :
    List (String × String) :=
  [("lang", "en"), ("grid", grid), ("destproj", dcoord),
   ("destzone", pyStrOpt dz), ("dir", mode)]

/-! ## GPSH argument pipeline (GPSH.py lines 125-154, 157-218, 238-278,
363-377) -/

/-- The `sys.exit` outcomes of the GPSH validation pipeline.  `pyFault`
models an uncaught Python exception (subscripting or concatenating `None`),
which can only arise for argument combinations `argparse` cannot produce. -/
inductive GpshError where
  | batchArgs
  | epochArgMissing
  | zoneRequired
  | cartesianHmode
  | convertCartesian
  | geoidRequired
  | frameUnknown (shown : List String)
  | zoneUnknown (shown : List String)
  | epochRange (raw : String)
  | epochFormat (raw : String)
  | pyFault
  deriving DecidableEq

/-- The advisory printed when a geoid conversion forces `--hmode` on
(GPSH.py line 145). -/
def gpshHmodeWarn : String :=
  "WARN: You can only use orthometric heights in geoid conversion (--hmode). --hmode turned ON"

/-- GPSH.py lines 130-154, the logic checks: epoch presence, projection
zone, the Cartesian/`hmode` guard (`args.hmode is not None`), the conversion
adjustments, and geoid presence.  Returns the possibly-forced `hmode`
together with the advisories printed. -/
def gpshLogicChecks (convert epochA geoid : Option String) (proj : String)
    (zone hmode : Option String) : Except GpshError (Option String × List String) :=
  if convert == none && epochA == none then .error .epochArgMissing
  else if proj == "plan" && zone == none then .error .zoneRequired
  else if proj == "car" && hmode != none then .error .cartesianHmode
  else
    let force := convert != none && hmode != some "on"
    let hmode2 := if force then some "on" else hmode
    let w1 := if force then [gpshHmodeWarn] else []
    if convert != none && proj == "car" then .error .convertCartesian
    else if convert == none && geoid == none then .error .geoidRequired
    else .ok (hmode2, w1)

/-- The advisory printed by the geoid-model epoch override (GPSH.py lines
256, 259, 262), keyed by `args.geoid.lower()`. -/
def gpshOverrideMsg (gl : String) : Option String :=
  if gl == "ht2_2010v70" then
    some "WARN: HT2_2010v70 geoid model will automatically set the epoch to 2010-01-01 for standard usage."
  else if gl == "ht2_2002v70" then
    some "WARN: HT2_2002v70 geoid model will automatically set the epoch to 2002-01-01 for standard usage."
  else if gl == "ht2_1997" then
    some "WARN: HT2_1997 geoid model will automatically set the epoch to 1997-01-01 for standard usage."
  else none

/-- The epoch forced by the geoid-model override (GPSH.py lines 254-262),
keyed by `args.geoid.lower()`; other models keep the validated epoch. -/
def gpshOverrideEpoch (gl e : String) : String :=
  if gl == "ht2_2010v70" then "2010-01-01"
  else if gl == "ht2_2002v70" then "2002-01-01"
  else if gl == "ht2_1997" then "1997-01-01"
  else e

/-- The override set and each model's mandated epoch, as claimed. -/
def gpshOverrideSet : List (String × String) :=
  [("ht2_2010v70", "2010-01-01"), ("ht2_2002v70", "2002-01-01"),
   ("ht2_1997", "1997-01-01")]

/-- GPSH.py lines 238-262: validate the raw epoch (`resolveEpoch`), then
apply the geoid-model override unconditionally to the accepted value. -/
def gpshEpochResolve (geoid epochA : Option String) :
    Except GpshError (String × List String) :=
  match epochA with
  | none => .error .pyFault
  | some raw =>
    match resolveEpoch raw with
    | .accepted e =>
      match geoid with
      | none => .error .pyFault
      | some g =>
        .ok (gpshOverrideEpoch (strLow g) e, (gpshOverrideMsg (strLow g)).toList)
    | .outOfRange r => .error (.epochRange r)
    | .badFormat r => .error (.epochFormat r)

/-- A built GPSH single-point call: the URL path (with the geoid or
conversion model embedded), the url-encoded query parameters in insertion
order, and the advisories printed along the way. -/
structure GpshCall where
  urlPath : String
  params : List (String × String)
  advisories : List String
  deriving DecidableEq

/-- GPSH.py lines 171-181: the frame alias resolution and `rf_list.index`
check of the pipeline. -/
def gpshFrameStep (refFrame : String) : Except GpshError String :=
  if rf_list.contains (frameCanon refFrame) then .ok (frameCanon refFrame)
  else .error (.frameUnknown rf_list)

/-- GPSH.py lines 184-199: an absent zone becomes the empty string and is
not checked; a supplied zone is alias-resolved and checked against
`zone_list`. -/
def gpshZoneStep (zone : Option String) : Except GpshError String :=
  match zone with
  | none => .ok ""
  | some t =>
    if zone_list.contains (zoneAlias t) then .ok (zoneAlias t)
    else .error (.zoneUnknown zone_list)

/-- The GPSH single-point pipeline in source order: logic checks (130-154),
frame alias and catalog check (171-181), zone alias and catalog check
(184-199), epoch validation and geoid override (238-262), conversion
silencing (272-278), and the URL construction (363-377).  The geoid and
conversion catalog lookups (157-168, 201-218) produce `geoidArg`, which the
URL concatenation needs; a `None` there is the `pyFault` crash. -/
def gpshPipeline (geoid : Option String) (refFrame : String) (epochA : Option String)
    (zone convert hmode : Option String) (proj westpos : String)
    (x y z : Option String) : Except GpshError GpshCall :=
  match gpshLogicChecks convert epochA geoid proj zone hmode with
  | .error e => .error e
  | .ok (hmode2, w1) =>
    match gpshFrameStep refFrame with
    | .error e => .error e
    | .ok f =>
      match gpshZoneStep zone with
      | .error e => .error e
      | .ok zstr =>
        match gpshEpochResolve geoid epochA with
        | .error e => .error e
        | .ok (efinal, w2) =>
          let gArg : Option String :=
            if convert.isSome then convert.bind (findCI conversions_dict)
            else geoid.bind (findCI geoid_list)
          let epoch2 := if convert.isSome then "" else efinal
          let conversion := if convert.isSome then "on" else ""
          match gArg with
          | none => .error .pyFault
          | some g =>
            .ok ⟨"https://webapp.csrs-scrs.nrcan-rncan.gc.ca/CSRS/tools/GPSH/" ++ g ++ "?",
              [("dataType", "json"), ("lang", "en"), ("epoch", epoch2),
               ("frame", f), ("proj", strLow proj), ("x", pyStrOpt x),
               ("y", pyStrOpt y), ("z", pyStrOpt z), ("zone", zstr),
               ("westpos", strLow westpos), ("hmode", pyStrOpt hmode2),
               ("conversion", conversion)], w1 ++ w2⟩

/-- Whether the GPSH pipeline reached a built call. -/
def gpshCallOk (r : Except GpshError GpshCall) : Bool := exOk r

/-- The `epoch` query parameter of a built GPSH call. -/
def gpshCallEpoch : Except GpshError GpshCall → Option String
  | .ok c => lookupP "epoch" c.params
  | .error _ => none

/-- The advisories of a built GPSH call. -/
def gpshCallAdvisories : Except GpshError GpshCall → List String
  | .ok c => c.advisories
  | .error _ => []

/-- GPSH.py line 125: the batch-mode requirement guard
(`args.file_path and not (args.geoid and args.ref_frame and args.epoch)`),
with Python truthiness. -/
def gpshBatchGuardFires (filePath geoid refFrame epochA : Option String) : Bool :=
  truthy filePath && !(truthy geoid && truthy refFrame && truthy epochA)

/-- The first `sys.exit` of a GPSH invocation before any catalog check or
URL construction: the batch guard (line 125), then the logic checks (lines
130-154). -/
def gpshFirstExit (filePath geoid refFrame epochA convert : Option String)
    (proj : String) (zone hmode : Option String) : Option GpshError :=
  if gpshBatchGuardFires filePath geoid refFrame epochA then some .batchArgs
  else
    match gpshLogicChecks convert epochA geoid proj zone hmode with
    | .error e => some e
    | .ok _ => none

/-! ## TRX calculation builder (TRX.py lines 356-383 and 385-407) -/

/-- The condition of TRX.py line 356,
`epoch_trans == 'on' and (geovinterp or carvinterp or planvinterp) == 'on'`:
all three interpolation toggles hold the same `trxVelInterp` value. -/
def trxVelCallCond (epochTrans : String) (vx vy vz : Option String) : Bool :=
  let g := trxVelInterp vx vy vz
  epochTrans == "on" && pyOrS (pyOrS g g) g == "on"

/-- The velocity-interpolation call of TRX.py lines 358-369: path
`/CSRS/tools/TRX/vel/<originCoord>` plus these query parameters. -/
def trxVelParams (oepoch depoch orefframe : String) (x y : Option String)
    (z drefframe dcoord westpos : String) : List (String × String) :=
  [("dataType", "json"), ("epoch", oepoch), ("destepoch", depoch),
   ("frame", orefframe), ("x", pyStrOpt x), ("y", pyStrOpt y), ("z", z),
   ("destframe", drefframe), ("destproj", dcoord), ("westpos", westpos)]

/-- `str(...)` as `urlencode` applies it to a value spliced out of the
velocity-interpolation JSON response.  The service returns flat string
fields; composite values (never produced) are rendered as placeholders and
exercised by no theorem. -/
def pyStrJson : Json → String
  | .jstr s => s
  | .jnum lit => lit
  | .jnull => "None"
  | .jbool true => "True"
  | .jbool false => "False"
  | .jarr _ => ""
  | .jobj _ => ""

/-- TRX.py lines 356-383: when the line-356 condition holds, the script
first issues the interpolation call and overwrites `vx`, `vy`, `vz` with
`resultsVel_dict['VX']`, `['VY']`, `['VZ']` (an uncaught exception if the
response is unparseable or lacks a component); otherwise the user-supplied
values are kept.  Returns the three values as `urlencode` renders them. -/
def trxCalcVel (epochTrans : String) (vx vy vz : Option String)
    (velResp : Option Json) : Except PyErr (String × String × String) :=
  if trxVelCallCond epochTrans vx vy vz then
    match pyIndexOpt velResp "VX" with
    | .error e => .error e
    | .ok a =>
      match pyIndexOpt velResp "VY" with
      | .error e => .error e
      | .ok b =>
        match pyIndexOpt velResp "VZ" with
        | .error e => .error e
        | .ok c => .ok (pyStrJson a, pyStrJson b, pyStrJson c)
  else .ok (pyStrOpt vx, pyStrOpt vy, pyStrOpt vz)

/-- TRX.py lines 356-407: the optional velocity-interpolation pre-step
followed by the calculation URL parameters (lines 389-407, insertion order).
The first component records whether the interpolation call was made. -/
def trxBuildCalc (westpos epochTrans orefframe oepoch : String)
    (x y : Option String) (z : String) (ozone : Option String)
    (vx vy vz : Option String) (drefframe dcoord : String)
    (dzone : Option String) (depoch : String) (velResp : Option Json) :
    Except PyErr (Bool × List (String × String)) :=
  let made := trxVelCallCond epochTrans vx vy vz
  let g := trxVelInterp vx vy vz
  match trxCalcVel epochTrans vx vy vz velResp with
  | .error e => .error e
  | .ok (va, vb, vc) =>
    .ok (made,
      [("dataType", "json"), ("westpos", westpos), ("epoch_trans", epochTrans),
       ("frame", orefframe), ("epoch", oepoch), ("x", pyStrOpt x),
       ("y", pyStrOpt y), ("z", z), ("zone", pyStrOpt ozone),
       ("geovinterp", g), ("vx", va), ("vy", vb), ("vz", vc),
       ("carvinterp", g), ("planvinterp", g), ("destframe", drefframe),
       ("destproj", dcoord), ("destzone", pyStrOpt dzone),
       ("destepoch", depoch)])

/-- Whether the interpolation pre-call was made, on a successful build. -/
def trxCallFlag : Except PyErr (Bool × List (String × String)) → Option Bool
  | .ok (b, _) => some b
  | .error _ => none

/-- A query parameter of the calculation call, on a successful build. -/
def trxCallParam (k : String) : Except PyErr (Bool × List (String × String)) → Option String
  | .ok (_, ps) => lookupP k ps
  | .error _ => none

/-! ## The claims -/

/-- Helper: whenever the GPSH single-point pipeline (with no conversion)
builds a call for a geoid whose override replaces every accepted epoch by a
constant `m`, the call's `epoch` parameter is `m` and the advisory list is
non-empty. -/
lemma gpshPipeline_override_epoch (g raw m : String) (refFrame : String)
    (zone hmode : Option String) (proj westpos : String) (x y z : Option String)
    (hfind : (findCI geoid_list g).isSome = true)
    (hoe : ∀ e, gpshOverrideEpoch (strLow g) e = m)
    (hmsg : (gpshOverrideMsg (strLow g)).isSome = true)
    (hok : gpshCallOk (gpshPipeline (some g) refFrame (some raw) zone none hmode
      proj westpos x y z) = true) :
    gpshCallEpoch (gpshPipeline (some g) refFrame (some raw) zone none hmode
      proj westpos x y z) = some m ∧
    gpshCallAdvisories (gpshPipeline (some g) refFrame (some raw) zone none hmode
      proj westpos x y z) ≠ [] := by
  obtain ⟨can, hcan⟩ := Option.isSome_iff_exists.mp hfind
  obtain ⟨msg, hm⟩ := Option.isSome_iff_exists.mp hmsg
  cases hlc : gpshLogicChecks none (some raw) (some g) proj zone hmode with
  | error e => simp [gpshPipeline, hlc, gpshCallOk, exOk] at hok
  | ok pr =>
    obtain ⟨hm2, w1⟩ := pr
    cases hf : gpshFrameStep refFrame with
    | error e => simp [gpshPipeline, hlc, hf, gpshCallOk, exOk] at hok
    | ok f =>
      cases hz : gpshZoneStep zone with
      | error e => simp [gpshPipeline, hlc, hf, hz, gpshCallOk, exOk] at hok
      | ok zs =>
        cases hres : resolveEpoch raw with
        | accepted e0 =>
          have hep : gpshEpochResolve (some g) (some raw) = .ok (m, [msg]) := by
            simp [gpshEpochResolve, hres, hoe e0, hm]
          constructor
          · simp only [gpshPipeline, hlc, hf, hz, hep, Option.some_bind, hcan,
              gpshCallEpoch]
            rfl
          · simp only [gpshPipeline, hlc, hf, hz, hep, Option.some_bind, hcan,
              gpshCallAdvisories]
            simp
        | outOfRange r =>
          have hep : gpshEpochResolve (some g) (some raw) = .error (.epochRange r) := by
            simp [gpshEpochResolve, hres]
          simp [gpshPipeline, hlc, hf, hz, hep, gpshCallOk, exOk] at hok
        | badFormat r =>
          have hep : gpshEpochResolve (some g) (some raw) = .error (.epochFormat r) := by
            simp [gpshEpochResolve, hres]
          simp [gpshPipeline, hlc, hf, hz, hep, gpshCallOk, exOk] at hok

/-- C1: the epoch resolver accepts a `YYYY-MM-DD` string denoting a real
calendar date unchanged (Python `$` also matches before one trailing
newline, so `2013-01-01` followed by a newline is accepted unchanged too);
otherwise a string that parses as a decimal number is accepted iff
`1980.0 <= float(raw) <= 2050.0` on the binary64 value — modelled exactly by
`pyInEpochRange`, so e.g. `1979.9999999999999`, which rounds to `1980.0`, is
accepted — and rejected out-of-range otherwise; any other string is rejected
with the bad-format error.  In particular `2051` is rejected as out of range
and `notadate` as bad format.  The universally quantified branches carry an
ASCII hypothesis because Python's `\d` and `float` additionally accept
non-ASCII Unicode decimal digit forms not modelled here. -/
theorem epoch_resolver_contract :
    (∀ raw : String, asciiOnly raw = true → date_format raw = true →
      resolveEpoch raw = .accepted raw) ∧
    (∀ raw v, asciiOnly raw = true → date_format raw = false →
      pyFloat raw = some v →
      pyInEpochRange v = true → resolveEpoch raw = .accepted raw) ∧
    (∀ raw v, asciiOnly raw = true → date_format raw = false →
      pyFloat raw = some v →
      pyInEpochRange v = false → resolveEpoch raw = .outOfRange raw) ∧
    (∀ raw, asciiOnly raw = true → date_format raw = false → pyFloat raw = none →
      resolveEpoch raw = .badFormat raw) ∧
    resolveEpoch "2013-01-01\n" = .accepted "2013-01-01\n" ∧
    resolveEpoch "1979.9999999999999" = .accepted "1979.9999999999999" ∧
    resolveEpoch "1979.9999999999998" = .outOfRange "1979.9999999999998" ∧
    resolveEpoch "2051" = .outOfRange "2051" ∧
    resolveEpoch "notadate" = .badFormat "notadate" := by
  refine ⟨?_, ?_, ?_, ?_, by decide, by decide, by decide, by decide, by decide⟩
  · intro raw _ h
    simp [resolveEpoch, h]
  · intro raw v _ h hf hr
    simp [resolveEpoch, h, hf, hr]
  · intro raw v _ h hf hr
    simp [resolveEpoch, h, hf, hr]
  · intro raw _ h hf
    simp [resolveEpoch, h, hf]

/-- Witness for C1: the four branches of the contract at concrete inputs. -/
theorem epoch_resolver_contract_witness :
    resolveEpoch "2013-01-01" = .accepted "2013-01-01" ∧
    resolveEpoch "1995.5" = .accepted "1995.5" ∧
    resolveEpoch "2051" = .outOfRange "2051" ∧
    resolveEpoch "notadate" = .badFormat "notadate" :=
  ⟨epoch_resolver_contract.1 "2013-01-01" (by decide) (by decide),
   epoch_resolver_contract.2.1 "1995.5" (.num 19955 1) (by decide) (by decide)
     (by decide) (by decide),
   epoch_resolver_contract.2.2.1 "2051" (.num 2051 0) (by decide) (by decide)
     (by decide) (by decide),
   epoch_resolver_contract.2.2.2.1 "notadate" (by decide) (by decide) (by decide)⟩

/-- C2 (code bug): the TRX all-or-nothing velocity check as the source wrote
it.  Supplying `vx` as the empty string with `vy`, `vz` absent is a partial
velocity set, yet the check passes (first conjunct) and interpolation stays
on — the `if vx or vz is not None:` truthiness slip.  Likewise
`vx="5", vy="", vz=""` passes the check (no branch fires, `vz` being
present) with interpolation left on.  By contrast `vx=""`, `vy=""` with `vz`
absent does exit: the third branch's `vy is not None` is always true there
(fourth conjunct).  For non-empty values the intended contract does hold:
every pattern with exactly one or two of the three set fails, none or all
three set passes, all three set turns interpolation off, none set leaves it
on. -/
theorem velocity_allornothing_evaluation :
    trxVelCheck (some "") none none = false ∧
    trxVelCheck (some "5") (some "") (some "") = false ∧
    trxVelInterp (some "5") (some "") (some "") = "on" ∧
    trxVelCheck (some "") (some "") none = true ∧
    trxVelCheck (some "5") none none = true ∧
    trxVelCheck none (some "5") none = true ∧
    trxVelCheck none none (some "5") = true ∧
    trxVelCheck (some "1") (some "2") none = true ∧
    trxVelCheck (some "1") none (some "3") = true ∧
    trxVelCheck none (some "2") (some "3") = true ∧
    trxVelCheck none none none = false ∧
    trxVelCheck (some "1") (some "2") (some "3") = false ∧
    trxVelInterp (some "1") (some "2") (some "3") = "off" ∧
    trxVelInterp none none none = "on" := by decide

/-- C3 (code bug): the response interpretation at the claimed inputs.  A body
that is not valid JSON leaves `results_dict = None`, and the error check then
evaluates `None['Errors']`, raising an uncaught `TypeError` instead of
reaching the all-null terminal state (first conjunct).  The two JSON-object
cases behave as claimed; a valid but non-object JSON body, or an `Errors`
member that is not an object, also raises `TypeError`. -/
theorem response_interpreter_evaluation :
    interpretResults none = .error .typeErr ∧
    interpretResults (some (.jobj [("Errors", .jobj [("Msg", .jstr "bad input")])])) =
      .ok (.svcError (.jstr "bad input")) ∧
    interpretResults (some (.jobj [("X", .jstr "1.0")])) =
      .ok (.success (some (.jobj [("X", .jstr "1.0")]))) ∧
    interpretResults (some (.jarr [])) = .error .typeErr ∧
    interpretResults (some (.jobj [("Errors", .jstr "x")])) = .error .typeErr :=
  ⟨rfl, rfl, rfl, rfl, rfl⟩

/-- C4: for a geoid model in the override set (matched on
`args.geoid.lower()`), the epoch resolver replaces any accepted user epoch
with the model's mandated epoch and surfaces an advisory, and whenever the
single-point pipeline builds a call, its `epoch` query parameter carries the
mandated value and the advisory list is non-empty. -/
theorem geoid_epoch_override :
    (∀ g raw e m, (strLow g, m) ∈ gpshOverrideSet →
      resolveEpoch raw = .accepted e →
      gpshEpochResolve (some g) (some raw) =
        .ok (m, (gpshOverrideMsg (strLow g)).toList) ∧
      gpshOverrideMsg (strLow g) ≠ none) ∧
    (∀ g raw m refFrame zone hmode proj westpos x y z,
      (strLow g, m) ∈ gpshOverrideSet →
      gpshCallOk (gpshPipeline (some g) refFrame (some raw) zone none hmode
        proj westpos x y z) = true →
      gpshCallEpoch (gpshPipeline (some g) refFrame (some raw) zone none hmode
        proj westpos x y z) = some m ∧
      gpshCallAdvisories (gpshPipeline (some g) refFrame (some raw) zone none hmode
        proj westpos x y z) ≠ []) := by
  constructor
  · intro g raw e m hmem hres
    simp [gpshOverrideSet, Prod.mk.injEq] at hmem
    rcases hmem with ⟨h1, h2⟩ | ⟨h1, h2⟩ | ⟨h1, h2⟩ <;> subst h2 <;>
      refine ⟨?_, ?_⟩ <;>
        simp [gpshEpochResolve, hres, h1, gpshOverrideEpoch, gpshOverrideMsg]
  · intro g raw m refFrame zone hmode proj westpos x y z hmem hok
    simp [gpshOverrideSet, Prod.mk.injEq] at hmem
    rcases hmem with ⟨h1, h2⟩ | ⟨h1, h2⟩ | ⟨h1, h2⟩ <;> subst h2 <;>
      exact gpshPipeline_override_epoch _ _ _ _ _ _ _ _ _ _ _
        (by simp only [findCI, h1]; decide)
        (fun e => by simp [gpshOverrideEpoch, h1])
        (by simp [gpshOverrideMsg, h1]) hok

/-- Witness for C4: end-to-end scenario B — geoid `HT2_2010V70` with user
epoch `2020-01-01` resolves to `2010-01-01` in the built call. -/
theorem geoid_epoch_override_witness :
    gpshCallEpoch (gpshPipeline (some "HT2_2010V70") "NAD83" (some "2020-01-01")
      none none (some "off") "geo" "true" (some "60") (some "60") (some "100")) =
      some "2010-01-01" ∧
    gpshCallAdvisories (gpshPipeline (some "HT2_2010V70") "NAD83" (some "2020-01-01")
      none none (some "off") "geo" "true" (some "60") (some "60") (some "100")) ≠ [] :=
  geoid_epoch_override.2 "HT2_2010V70" "2020-01-01" "2010-01-01" "NAD83" none
    (some "off") "geo" "true" (some "60") (some "60") (some "100") (by decide)
    (by decide)

/-- C5: every flag combination that selects the Cartesian coordinate system
together with height mode on is rejected by the logic checks with the
Cartesian/`hmode` error, and the single-point pipeline never builds a call
for it (so no network request is constructed). -/
theorem cartesian_heightmode_rejected :
    (∀ convert epochRaw geoid zone,
      gpshLogicChecks convert (some epochRaw) geoid "car" zone (some "on") =
        .error .cartesianHmode) ∧
    (∀ geoid refFrame epochRaw zone convert westpos x y z,
      gpshPipeline geoid refFrame (some epochRaw) zone convert (some "on")
        "car" westpos x y z = .error .cartesianHmode) := by
  constructor
  · intro convert epochRaw geoid zone
    cases convert <;> rfl
  · intro geoid refFrame epochRaw zone convert westpos x y z
    cases convert <;> rfl

/-- Counterexample for C6: the TRX rejection of an unknown frame token does
not enumerate the catalog (its error shows the empty list, not the non-empty
`rf_list`), contradicting the claim that every rejection enumerates the full
catalog. -/
theorem trx_frame_reject_no_catalog :
    trxFrameValidate "XTRF" = .error ⟨[]⟩ ∧ rf_list ≠ [] :=
  ⟨rfl, by decide⟩

/-- C6 (amended): any token case-insensitively starting with `NAD` resolves
to the canonical `NAD83(CSRS)` and is accepted, in both GPSH and TRX;
likewise zone tokens starting with `NB` / `PEI` resolve to the bracketed
canonical zones; a token matching no catalog entry and no alias prefix is
rejected — GPSH enumerates the full catalog in the rejection, TRX rejects
without enumerating it. -/
theorem alias_resolution :
    (∀ tok, strBegins (strUp tok) "NAD" = true →
      gpshFrameValidate tok = .ok "NAD83(CSRS)" ∧
      trxFrameValidate tok = .ok "NAD83(CSRS)") ∧
    (∀ tok, strBegins (strUp tok) "NB" = true →
      gpshZoneValidate tok = .ok "NB-NAD83(CSRS)" ∧
      trxZoneValidate tok = .ok "NB-NAD83(CSRS)") ∧
    (∀ tok, strBegins (strUp tok) "NB" = false →
      strBegins (strUp tok) "PEI" = true →
      gpshZoneValidate tok = .ok "PEI-NAD83(CSRS)" ∧
      trxZoneValidate tok = .ok "PEI-NAD83(CSRS)") ∧
    (∀ tok, strBegins (strUp tok) "NAD" = false →
      rf_list.contains (strUp tok) = false →
      gpshFrameValidate tok = .error ⟨rf_list⟩ ∧
      trxFrameValidate tok = .error ⟨[]⟩) ∧
    (∀ tok, strBegins (strUp tok) "NB" = false →
      strBegins (strUp tok) "PEI" = false →
      zone_list.contains (strUp tok) = false →
      gpshZoneValidate tok = .error ⟨zone_list⟩ ∧
      trxZoneValidate tok = .error ⟨[]⟩) := by
  refine ⟨?_, ?_, ?_, ?_, ?_⟩
  · intro tok h
    have hc : frameCanon tok = "NAD83(CSRS)" := by simp [frameCanon, h]
    exact ⟨by simp only [gpshFrameValidate, hc]; rfl,
      by simp only [trxFrameValidate, hc]; rfl⟩
  · intro tok h
    have hc : zoneAlias tok = "NB-NAD83(CSRS)" := by simp [zoneAlias, h]
    exact ⟨by simp only [gpshZoneValidate, hc]; rfl,
      by simp only [trxZoneValidate, hc]; rfl⟩
  · intro tok h1 h2
    have hc : zoneAlias tok = "PEI-NAD83(CSRS)" := by simp [zoneAlias, h1, h2]
    exact ⟨by simp only [gpshZoneValidate, hc]; rfl,
      by simp only [trxZoneValidate, hc]; rfl⟩
  · intro tok h1 h2
    have hc : frameCanon tok = strUp tok := by simp [frameCanon, h1]
    exact ⟨by simp only [gpshFrameValidate, hc, h2]; rfl,
      by simp only [trxFrameValidate, hc, h2]; rfl⟩
  · intro tok h1 h2 h3
    have hc : zoneAlias tok = strUp tok := by simp [zoneAlias, h1, h2]
    exact ⟨by simp only [gpshZoneValidate, hc, h3]; rfl,
      by simp only [trxZoneValidate, hc, h3]; rfl⟩

/-- Witness for C6: alias idempotence at the claimed tokens and the two
rejection shapes at concrete unknown tokens. -/
theorem alias_resolution_witness :
    gpshFrameValidate "nad83" = .ok "NAD83(CSRS)" ∧
    trxFrameValidate "NAD" = .ok "NAD83(CSRS)" ∧
    gpshFrameValidate "NadAnything" = .ok "NAD83(CSRS)" ∧
    gpshZoneValidate "nb1" = .ok "NB-NAD83(CSRS)" ∧
    trxZoneValidate "peiX" = .ok "PEI-NAD83(CSRS)" ∧
    gpshFrameValidate "XTRF" = .error ⟨rf_list⟩ ∧
    gpshZoneValidate "ZZ9" = .error ⟨zone_list⟩ :=
  ⟨(alias_resolution.1 "nad83" (by decide)).1,
   (alias_resolution.1 "NAD" (by decide)).2,
   (alias_resolution.1 "NadAnything" (by decide)).1,
   (alias_resolution.2.1 "nb1" (by decide)).1,
   (alias_resolution.2.2.1 "peiX" (by decide) (by decide)).2,
   (alias_resolution.2.2.2.1 "XTRF" (by decide) (by decide)).1,
   (alias_resolution.2.2.2.2 "ZZ9" (by decide) (by decide) (by decide)).1⟩

/-- C7: with 3D mode on, a missing first-point height is a hard error in
either method; in direct mode, absence of both zenith and delta-height is a
hard error whose message names the alternative; in indirect mode, absence of
the second-point height is a hard error; with 3D mode off none of these
heights is required and the checks succeed. -/
theorem indir_threeD_height_requirements :
    (∀ indir z2a dha x2a y2a,
      indirPointChecks "true" indir none z2a dha x2a y2a =
        .error .firstHeightMissing) ∧
    (∀ z1v x2a y2a,
      indirPointChecks "true" "direct" (some z1v) none none x2a y2a =
        .error .zenithOrDeltaMissing) ∧
    indirErrorMsg .zenithOrDeltaMissing =
      "ERROR: For 3D usage (-3d) you must provide forward zenith (-z2) OR delta_H (-dh)." ∧
    (∀ z1v dha x2a y2a,
      indirPointChecks "true" "indirect" (some z1v) none dha x2a y2a =
        .error .secondHeightMissing) ∧
    (∀ indir z1a z2a dha x2a y2a,
      exOk (indirPointChecks "false" indir z1a z2a dha x2a y2a) = true) := by
  refine ⟨fun _ _ _ _ _ => rfl, fun _ _ _ => rfl, rfl, fun _ _ _ _ => rfl, ?_⟩
  intro indir z1a z2a dha x2a y2a
  cases h : indir == "direct" <;> simp [indirPointChecks, h, exOk]

/-- Counterexample for C8: with `vx="5"`, `vy=""`, `vz=""` all three velocity
arguments are supplied, yet with epoch transformation on the interpolation
pre-call is still made (and the toggles stay on), contradicting the claim
that no interpolation call is made when all three are supplied. -/
theorem velocity_splice_all_supplied_cex :
    trxVelCallCond "on" (some "5") (some "") (some "") = true ∧
    trxVelInterp (some "5") (some "") (some "") = "on" :=
  ⟨rfl, rfl⟩

/-- C8 (amended): with epoch transformation on and no user velocities, the
builder issues the interpolation pre-call and splices the response components
`VX`, `VY`, `VZ` into the `vx`, `vy`, `vz` parameters of the calculation
call; when all three velocities are supplied as non-empty strings, no
interpolation call is made and the user values are sent (a velocity supplied
as the empty string counts as absent for this decision). -/
theorem velocity_interpolation_splice :
    (∀ wp ofr oe x y z oz dfr dco dz de resp a b c,
      pyIndexOpt resp "VX" = .ok (.jstr a) →
      pyIndexOpt resp "VY" = .ok (.jstr b) →
      pyIndexOpt resp "VZ" = .ok (.jstr c) →
      trxCallFlag (trxBuildCalc wp "on" ofr oe x y z oz none none none
        dfr dco dz de resp) = some true ∧
      trxCallParam "vx" (trxBuildCalc wp "on" ofr oe x y z oz none none none
        dfr dco dz de resp) = some a ∧
      trxCallParam "vy" (trxBuildCalc wp "on" ofr oe x y z oz none none none
        dfr dco dz de resp) = some b ∧
      trxCallParam "vz" (trxBuildCalc wp "on" ofr oe x y z oz none none none
        dfr dco dz de resp) = some c) ∧
    (∀ wp et ofr oe x y z oz dfr dco dz de resp a b c,
      a ≠ "" → b ≠ "" → c ≠ "" →
      trxCallFlag (trxBuildCalc wp et ofr oe x y z oz (some a) (some b) (some c)
        dfr dco dz de resp) = some false ∧
      trxCallParam "vx" (trxBuildCalc wp et ofr oe x y z oz (some a) (some b)
        (some c) dfr dco dz de resp) = some a ∧
      trxCallParam "vy" (trxBuildCalc wp et ofr oe x y z oz (some a) (some b)
        (some c) dfr dco dz de resp) = some b ∧
      trxCallParam "vz" (trxBuildCalc wp et ofr oe x y z oz (some a) (some b)
        (some c) dfr dco dz de resp) = some c) := by
  constructor
  · intro wp ofr oe x y z oz dfr dco dz de resp a b c h1 h2 h3
    have hflag : trxVelCallCond "on" (none : Option String) none none = true := rfl
    have hv : trxCalcVel "on" none none none resp = .ok (a, b, c) := by
      simp [trxCalcVel, hflag, h1, h2, h3, pyStrJson]
    refine ⟨?_, ?_, ?_, ?_⟩ <;>
        simp only [trxBuildCalc, hv, hflag, trxCallFlag, trxCallParam] <;> rfl
  · intro wp et ofr oe x y z oz dfr dco dz de resp a b c ha hb hc
    have hti : trxVelInterp (some a) (some b) (some c) = "off" := by
      simp [trxVelInterp, truthy, ha, hb]
    have hcond : trxVelCallCond et (some a) (some b) (some c) = false := by
      simp [trxVelCallCond, hti, pyOrS]
    have hv : trxCalcVel et (some a) (some b) (some c) resp = .ok (a, b, c) := by
      simp [trxCalcVel, hcond, pyStrOpt]
    refine ⟨?_, ?_, ?_, ?_⟩ <;>
        simp only [trxBuildCalc, hv, hcond, trxCallFlag, trxCallParam] <;> rfl

/-- Witness for C8: the splice with the documented example response, and the
no-call case with user velocities `1`, `2`, `3`. -/
theorem velocity_interpolation_splice_witness :
    trxCallFlag (trxBuildCalc "true" "on" "ITRF2020" "2013-01-01" (some "46")
      (some "101") "181.0" none none none none "ITRF2014" "plan" (some "UTM14")
      "2010-01-01" (some (.jobj [("VX", .jstr "-5.09"), ("VY", .jstr "-15.65"),
        ("VZ", .jstr "-3.05")]))) = some true ∧
    trxCallParam "vx" (trxBuildCalc "true" "on" "ITRF2020" "2013-01-01" (some "46")
      (some "101") "181.0" none none none none "ITRF2014" "plan" (some "UTM14")
      "2010-01-01" (some (.jobj [("VX", .jstr "-5.09"), ("VY", .jstr "-15.65"),
        ("VZ", .jstr "-3.05")]))) = some "-5.09" ∧
    trxCallFlag (trxBuildCalc "true" "on" "NAD83(CSRS)" "2010-01-01" (some "46")
      (some "101") "0.0" none (some "1") (some "2") (some "3") "NAD83(CSRS)" "geo"
      none "2013-01-01" none) = some false ∧
    trxCallParam "vx" (trxBuildCalc "true" "on" "NAD83(CSRS)" "2010-01-01" (some "46")
      (some "101") "0.0" none (some "1") (some "2") (some "3") "NAD83(CSRS)" "geo"
      none "2013-01-01" none) = some "1" :=
  ⟨(velocity_interpolation_splice.1 "true" "ITRF2020" "2013-01-01" (some "46")
      (some "101") "181.0" none "ITRF2014" "plan" (some "UTM14") "2010-01-01"
      (some (.jobj [("VX", .jstr "-5.09"), ("VY", .jstr "-15.65"),
        ("VZ", .jstr "-3.05")])) "-5.09" "-15.65" "-3.05" rfl rfl rfl).1,
   (velocity_interpolation_splice.1 "true" "ITRF2020" "2013-01-01" (some "46")
      (some "101") "181.0" none "ITRF2014" "plan" (some "UTM14") "2010-01-01"
      (some (.jobj [("VX", .jstr "-5.09"), ("VY", .jstr "-15.65"),
        ("VZ", .jstr "-3.05")])) "-5.09" "-15.65" "-3.05" rfl rfl rfl).2.1,
   (velocity_interpolation_splice.2 "true" "on" "NAD83(CSRS)" "2010-01-01"
      (some "46") (some "101") "0.0" none "NAD83(CSRS)" "geo" none "2013-01-01"
      none "1" "2" "3" (by decide) (by decide) (by decide)).1,
   (velocity_interpolation_splice.2 "true" "on" "NAD83(CSRS)" "2010-01-01"
      (some "46") (some "101") "0.0" none "NAD83(CSRS)" "geo" none "2013-01-01"
      none "1" "2" "3" (by decide) (by decide) (by decide)).2.1⟩

/-- Counterexample for C9: a user-supplied destination zone `utm` uppercases
to the placeholder `UTM`, which is exempt from the catalog check, so it is
accepted although `UTM` is not in the zone catalog — contradicting the claim
that every supplied destination zone outside the catalog is a hard error. -/
theorem ntv2_destzone_placeholder_cex :
    ntv2DestPipeline (some "utm") "geo" = .ok (some "UTM") ∧
    zone_list.contains "UTM" = false :=
  ⟨rfl, by decide⟩

/-- C9 (amended): with destination coordinate system `plan` and no supplied
destination zone, the destination zone defaults to the placeholder `UTM` and
the batch multipart field `destzone` carries `UTM`; the placeholder value
`UTM` is exempt from zone-catalog validation whether defaulted or supplied;
any other supplied destination zone whose alias resolution is not in the
catalog is a hard error. -/
theorem ntv2_destzone_default :
    (∀ grid mode, ntv2DestPipeline none "plan" = .ok (some "UTM") ∧
      lookupP "destzone" (ntv2BatchFields grid "plan" (some "UTM") mode) =
        some "UTM") ∧
    (∀ z dcoord, zone_list.contains (zoneAlias z) = false →
      zoneAlias z ≠ "UTM" →
      ntv2DestPipeline (some z) dcoord = .error .destZoneUnknown) := by
  refine ⟨fun grid mode => ⟨rfl, rfl⟩, ?_⟩
  intro z dcoord h1 h2
  have hb : (zoneAlias z == "UTM") = false := by
    simp [h2]
  have h1m : zoneAlias z ∉ zone_list := by simpa using h1
  simp [ntv2DestPipeline, ntv2DestZone, ntv2DestZoneCheck, hb, h1m]

/-- Witness for C9: scenario C fields for grid `NA27SCRS`, and a rejected
unknown destination zone `UTM99`. -/
theorem ntv2_destzone_default_witness :
    (ntv2DestPipeline none "plan" = .ok (some "UTM") ∧
      lookupP "destzone" (ntv2BatchFields "NA27SCRS" "plan" (some "UTM") "direct") =
        some "UTM") ∧
    ntv2DestPipeline (some "UTM99") "plan" = .error .destZoneUnknown :=
  ⟨ntv2_destzone_default.1 "NA27SCRS" "direct",
   ntv2_destzone_default.2 "UTM99" "plan" (by decide) (by decide)⟩

/-- C10: every GPSH invocation that selects the Cartesian coordinate system
exits before any catalog check or URL construction; with a single-point
invocation (no batch file, epoch argument present as `argparse` guarantees)
the exit is exactly the Cartesian/height-mode error for every `hmode` value
including the default `off`, because the guard tests `args.hmode is not
None` while the argument always holds a string; consequently the pipeline
never builds a Cartesian call. -/
theorem gpsh_cartesian_always_exits :
    (∀ fp g rf ea c z hm, gpshFirstExit fp g rf ea c "car" z (some hm) ≠ none) ∧
    (∀ g rf ea c z hm,
      gpshFirstExit none g rf (some ea) c "car" z (some hm) =
        some .cartesianHmode) ∧
    (∀ g rf ea z c hm wp x y zz,
      gpshCallOk (gpshPipeline g rf ea z c (some hm) "car" wp x y zz) = false) := by
  refine ⟨?_, ?_, ?_⟩
  · intro fp g rf ea c z hm
    cases hbg : gpshBatchGuardFires fp g rf ea
    · cases c <;> cases ea <;> simp [gpshFirstExit, hbg, gpshLogicChecks]
    · simp [gpshFirstExit, hbg]
  · intro g rf ea c z hm
    cases c <;> rfl
  · intro g rf ea z c hm wp x y zz
    cases c <;> cases ea <;> rfl

end GeoSvc
